import Mathlib

/-!
Verification of the GPSC course-sales Telegram bot (source variants
`src/main.py` and `src/bot.py`).  Message text is modelled as `List Char`;
the Python string operations the bot relies on (`sub in s`, `s.split(sep)`,
`s.replace`, `int(...)`, `html.escape`, `telegram.helpers.escape_markdown`)
are given executable models below, together with the catalog registry, the
conversation handlers and the admin-relay correlation protocol of both
source variants.
-/

/-- Does `p` match at the head of `s`?  Building block for the models of
Python substring search used by `"(ID: " in orig` and `orig.split(...)`. -/
def leadsWith : List Char → List Char → Bool
  | [], _ => true
  | _ :: _, [] => false
  | a :: as, b :: bs => a == b && leadsWith as bs

/-- Python `p in s`: `p` occurs contiguously somewhere in `s` (for nonempty `p`). -/
def occursIn (p : List Char) : List Char → Bool
  | [] => false
  | c :: t => leadsWith p (c :: t) || occursIn p t

/-- The text after the first occurrence of `p` in `s`, or `none` when `p` does
not occur.  `s.split(p)[1]` in Python is `upToFirst p` of this value. -/
def afterFirst (p : List Char) : List Char → Option (List Char)
  | [] => none
  | c :: t => if leadsWith p (c :: t) then some ((c :: t).drop p.length) else afterFirst p t

/-- The text before the first occurrence of `p` in `s` (Python `s.split(p)[0]`);
the whole of `s` when `p` does not occur. -/
def upToFirst (p : List Char) : List Char → List Char
  | [] => []
  | c :: t => if leadsWith p (c :: t) then [] else c :: upToFirst p t

/-- ASCII decimal digit test, as Python `int` accepts (ASCII digits modelled;
other Unicode decimal digits are not used by the bot). -/
def digitQ (c : Char) : Bool := 48 ≤ c.toNat && c.toNat ≤ 57

/-- Numeric value of an ASCII digit character. -/
def dval (c : Char) : Nat := c.toNat - 48

/-- Decimal value of a digit string (most significant first). -/
def valFrom (a : Nat) (l : List Char) : Nat := l.foldl (fun x c => x * 10 + dval c) a

/-- Whitespace characters stripped by Python `int(str)`. -/
def isWs (c : Char) : Bool :=
  c.toNat = 32 || c.toNat = 9 || c.toNat = 10 || c.toNat = 13 || c.toNat = 11 || c.toNat = 12

/-- Python `str.strip()` restricted to the whitespace `int` ignores. -/
def pyStrip (s : List Char) : List Char :=
  ((s.dropWhile isWs).reverse.dropWhile isWs).reverse

/-- Digit-and-underscore scan of Python `int`: after a leading digit, single
underscores may separate digit groups; anything else fails. -/
def udAux (a : Nat) : List Char → Option Nat
  | [] => some a
  | c :: t =>
    if digitQ c then udAux (a * 10 + dval c) t
    else if c.toNat = 95 then
      match t with
      | [] => none
      | c2 :: t2 => if digitQ c2 then udAux (a * 10 + dval c2) t2 else none
    else none

/-- Unsigned part of Python `int(str)`: a digit string with optional single
underscore separators, value in base 10. -/
def udVal : List Char → Option Nat
  | [] => none
  | c :: t => if digitQ c then udAux (dval c) t else none

/-- Model of Python `int(str)`: strip whitespace, optional sign, digits with
underscore separators; `none` models `ValueError`. -/
def pyInt (s : List Char) : Option Int :=
  match pyStrip s with
  | [] => none
  | c :: t =>
    if c.toNat = 43 then (udVal t).map Int.ofNat
    else if c.toNat = 45 then (udVal t).map (fun n => -(Int.ofNat n))
    else (udVal (c :: t)).map Int.ofNat

/-- The ASCII character of a decimal digit. -/
def digitChar (d : Nat) : Char := Char.ofNat (48 + d)

/-- Accumulator form of decimal rendering of a natural number. -/
def natDigitsAux : Nat → List Char → List Char
  | 0, acc => acc
  | n + 1, acc => natDigitsAux ((n + 1) / 10) (digitChar ((n + 1) % 10) :: acc)
decreasing_by exact Nat.div_lt_self (Nat.succ_pos n) (by omega)

/-- Decimal rendering of a natural number, as a Python f-string renders
`user.id` and the broadcast counters. -/
def natToDecimal (n : Nat) : List Char :=
  if n = 0 then [digitChar 0] else natDigitsAux n []

/-- Model of Python `html.escape` (quote=True), applied character-wise. -/
def htmlEscapeChar (c : Char) : List Char :=
  if c = '&' then "&amp;".data
  else if c = '<' then "&lt;".data
  else if c = '>' then "&gt;".data
  else if c = Char.ofNat 34 then "&quot;".data
  else if c = Char.ofNat 39 then "&#x27;".data
  else [c]

/-- Model of Python `html.escape` on a whole string. -/
def htmlEscape (s : List Char) : List Char := s.flatMap htmlEscapeChar

/-- The characters `telegram.helpers.escape_markdown(version=2)` escapes. -/
def mdSpecials : List Char :=
  ['_', '*', '[', ']', '(', ')', '~', Char.ofNat 96, '>', '#', '+', '-', '=',
   '|', Char.ofNat 123, Char.ofNat 125, '.', '!']

/-- Model of `escape_markdown(text, version=2)`, applied character-wise. -/
def mdEscapeChar (c : Char) : List Char :=
  if mdSpecials.contains c then [Char.ofNat 92, c] else [c]

/-- Model of `escape_markdown(text, version=2)` on a whole string. -/
def mdEscape (s : List Char) : List Char := s.flatMap mdEscapeChar

/-- The correlation token head `"(ID: "` used by both relay directions. -/
def tokID : List Char := ['(', 'I', 'D', ':', ' ']

/-- A catalog subject: display name and the two external content references
(`vid_msg_id`, `mat_msg_id`), `0` being the absent sentinel. -/
structure Subject where
  name : List Char
  vid_msg_id : Nat
  mat_msg_id : Nat
deriving DecidableEq

/-- A catalog course: display name, price, and its subjects keyed by callback id. -/
structure Course where
  name : List Char
  price : Nat
  subjects : List (String × Subject)
deriving DecidableEq

/-- Python `dict.get` on the string-keyed catalog tables. -/
def dGet {α : Type} : List (String × α) → String → Option α
  | [], _ => none
  | (k, v) :: t, key => if k = key then some v else dGet t key

/-- The `COURSES` table of `src/main.py`. -/
def COURSES_main : List (String × Course) :=
  [("c_gsssb", ⟨"GSSSB Non-Tech and CCE".data, 199,
     [("s_maths", ⟨"Maths".data, 3, 99⟩),
      ("s_reason", ⟨"Reasoning".data, 33, 100⟩),
      ("s_polity", ⟨"Polity".data, 47, 0⟩),
      ("s_env", ⟨"Environment".data, 58, 0⟩),
      ("s_lang", ⟨"Language".data, 64, 0⟩)]⟩),
   ("c_gpsc", ⟨"GPSC AE Civil".data, 199,
     [("s_survey", ⟨"Surveying".data, 68, 0⟩),
      ("s_enve", ⟨"Environment Engg".data, 81, 0⟩),
      ("s_bim", ⟨"BIM".data, 66, 0⟩),
      ("s_ecv", ⟨"ECV".data, 86, 0⟩)]⟩)]

/-- The `COURSES` table of `src/bot.py`. -/
def COURSES_bot : List (String × Course) :=
  [("c_gsssb", ⟨"GSSSB Non-Tech".data, 499,
     [("s_maths", ⟨"Maths".data, 10, 11⟩),
      ("s_reason", ⟨"Reasoning".data, 12, 13⟩),
      ("s_polity", ⟨"Polity".data, 14, 15⟩),
      ("s_env", ⟨"Environment".data, 16, 17⟩),
      ("s_lang", ⟨"Language".data, 18, 19⟩)]⟩),
   ("c_gpsc", ⟨"GPSC AE Civil".data, 999,
     [("s_survey", ⟨"Surveying".data, 20, 21⟩),
      ("s_enve", ⟨"Environment Engg".data, 22, 23⟩),
      ("s_bim", ⟨"BIM".data, 24, 25⟩),
      ("s_ecv", ⟨"ECV".data, 26, 27⟩)]⟩)]

/-- The three conversation states `range(3)` of both variants. -/
def SELECTING_ACTION : Nat := 0

/-- State waiting for the text to relay to the admin. -/
def FORWARD_TO_ADMIN : Nat := 1

/-- State waiting for the payment screenshot. -/
def FORWARD_SCREENSHOT : Nat := 2

/-- Per-user session (`context.user_data`): the keys the handlers use. -/
structure Session where
  selected_course : Option Course
  selected_subject : Option Subject
  back_to_course_key : Option String
deriving DecidableEq

/-- A fresh session with no selection stored. -/
def emptySession : Session := ⟨none, none, none⟩

/-- Accounting side effects dispatched to the backing store. -/
inductive DbOp where
  | upsertUser (uid : Nat) (name : List Char)
  | bump (action : List Char)
deriving DecidableEq

/-- Availability of the accounting backing store: `absent` models no
`db_pool` in `bot_data`, `up` a working pool, `down` a pool whose queries
raise. -/
inductive DbState where
  | absent
  | up
  | down
deriving DecidableEq

/-- Observable outcome of one callback/command handler: updated session,
accounting calls, messages and callback alerts shown to the user, replay
(`copy_message`) requests issued, and the conversation state returned. -/
structure HOut where
  sess : Session
  db : List DbOp
  msgs : List (List Char)
  alerts : List (List Char)
  replays : List Nat
  nextState : Nat
deriving DecidableEq

/-- Welcome text rendered by `start` in `src/main.py`. -/
def welcome_text_main (name : List Char) : List Char :=
  "👋 Welcome, <b>".data ++ htmlEscape name ++
  "</b>!\n\n<b>📖 How to use this platform:</b>\n1. Select your target exam category below.\n2. Choose a subject to view free demo lectures and study materials.\n3. Purchase the full course to unlock complete preparation content.\n\n🌟 <b>Note:</b> These courses feature premium, high-quality lectures from <b>Web Sankul Academy</b> to ensure top-tier preparation.\n\nPlease select a course category below to begin:".data

/-- Welcome text rendered by `start` in `src/bot.py` (MarkdownV2). -/
def welcome_text_bot (name : List Char) : List Char :=
  "👋 Welcome, ".data ++ mdEscape name ++
  "\\!\n\nPlease select a course category below to begin:".data

/-- `start` of `src/main.py`: guarded accounting (`if pool:`), then the course
menu.  With the pool present but the store down, `track_user` raises out of
the handler before any rendering. -/
def start_main (db : DbState) (uid : Nat) (name : List Char) (sess : Session) :
    Except (List Char) HOut :=
  match db with
  | .absent => .ok ⟨sess, [], [welcome_text_main name], [], [], SELECTING_ACTION⟩
  | .up => .ok ⟨sess, [.upsertUser uid name, .bump "bot_starts".data],
      [welcome_text_main name], [], [], SELECTING_ACTION⟩
  | .down => .error "asyncpg error raised by track_user".data

/-- `start` of `src/bot.py`: `context.bot_data[..]` raises `KeyError` when the
pool is absent, and the unguarded awaits raise when the store is down. -/
def start_bot (db : DbState) (uid : Nat) (name : List Char) (sess : Session) :
    Except (List Char) HOut :=
  match db with
  | .absent => .error "KeyError: db_pool".data
  | .up => .ok ⟨sess, [.upsertUser uid name, .bump "bot_starts".data],
      [welcome_text_bot name], [], [], SELECTING_ACTION⟩
  | .down => .error "asyncpg error raised by track_user".data

/-- Course menu text of `src/main.py`. -/
def course_menu_text_main (c : Course) : List Char :=
  "📚 <b>".data ++ htmlEscape c.name ++
  "</b>\n\n<b>What you will get:</b> Complete video lectures and high-quality PDF materials for all the subjects listed below.\n\nSelect a subject to explore free demos or proceed to purchase:".data

/-- `course_menu` of `src/main.py`: validates the course id with `.get` and
returns silently (current menu left as-is) when unknown. -/
def course_menu_main (db : DbState) (course_key : String) (sess : Session) :
    Except (List Char) HOut :=
  match dGet COURSES_main course_key with
  | none => .ok ⟨sess, [], [], [], [], SELECTING_ACTION⟩
  | some c =>
    match db with
    | .absent => .ok ⟨sess, [], [course_menu_text_main c], [], [], SELECTING_ACTION⟩
    | .up => .ok ⟨sess, [.bump ("view_".data ++ course_key.data)],
        [course_menu_text_main c], [], [], SELECTING_ACTION⟩
    | .down => .error "asyncpg error raised by increment_stat".data

/-- Subject menu text of `src/main.py`. -/
def subject_menu_text_main (c : Course) (s : Subject) : List Char :=
  "📘 <b>".data ++ htmlEscape c.name ++ " &gt; ".data ++ htmlEscape s.name ++
  "</b>\n\nEvaluate the content quality before you commit. Watch the demo video or read the demo PDF provided by Web Sankul Academy.\n\nChoose an action below:".data

/-- `subject_menu` of `src/main.py`: indexes `COURSES[course_key]` and
`course["subjects"][subj_key]` directly, so an unknown identifier raises
`KeyError`; on success the selection is stored in the session. -/
def subject_menu_main (course_key subj_key : String) (_sess : Session) :
    Except (List Char) HOut :=
  match dGet COURSES_main course_key with
  | none => .error "KeyError".data
  | some c =>
    match dGet c.subjects subj_key with
    | none => .error "KeyError".data
    | some s => .ok ⟨⟨some c, some s, some course_key⟩, [],
        [subject_menu_text_main c s], [], [], SELECTING_ACTION⟩

/-- Which reference a demo kind reads (`vid_msg_id` or `mat_msg_id`). -/
inductive DemoKind where
  | vid
  | mat
deriving DecidableEq

/-- The stored content reference of a subject for a demo kind. -/
def demoRef (s : Subject) : DemoKind → Nat
  | .vid => s.vid_msg_id
  | .mat => s.mat_msg_id

/-- Upsell message sent after a successful demo copy in `src/main.py`. -/
def upsell_text_main (c : Course) : List Char :=
  "Liked the demo? Unlock the complete Web Sankul Academy course for ".data ++
  htmlEscape c.name ++ " below:".data

/-- `send_demo_content` of `src/main.py`: direct catalog indexing, sentinel /
unconfigured-channel alert, one `copy_message` replay otherwise, transport
failure caught and surfaced as a user notice. -/
def send_demo_content_main (channelId : Int) (course_key subj_key : String)
    (kind : DemoKind) (copyOk : Bool) (sess : Session) : Except (List Char) HOut :=
  match dGet COURSES_main course_key with
  | none => .error "KeyError".data
  | some c =>
    match dGet c.subjects subj_key with
    | none => .error "KeyError".data
    | some s =>
      if channelId = 0 ∨ demoRef s kind = 0 then
        .ok ⟨sess, [], [], ["No demo available for this subject yet.".data], [], SELECTING_ACTION⟩
      else if copyOk then
        .ok ⟨sess, [], [upsell_text_main c], [], [demoRef s kind], SELECTING_ACTION⟩
      else
        .ok ⟨sess, [],
          ["Sorry, the file could not be loaded. Please ensure the bot is an admin in the private channel.".data],
          [], [demoRef s kind], SELECTING_ACTION⟩

/-- `send_demo_content` of `src/bot.py`: same direct indexing, message instead
of alert for the sentinel, no upsell follow-up. -/
def send_demo_content_bot (channelId : Int) (course_key subj_key : String)
    (kind : DemoKind) (copyOk : Bool) (sess : Session) : Except (List Char) HOut :=
  match dGet COURSES_bot course_key with
  | none => .error "KeyError".data
  | some c =>
    match dGet c.subjects subj_key with
    | none => .error "KeyError".data
    | some s =>
      if channelId = 0 ∨ demoRef s kind = 0 then
        .ok ⟨sess, [],
          ["Admin hasn".data ++ [Char.ofNat 39] ++ "t configured the demo links yet. Please check back later.".data],
          [], [], SELECTING_ACTION⟩
      else if copyOk then
        .ok ⟨sess, [], [], [], [demoRef s kind], SELECTING_ACTION⟩
      else
        .ok ⟨sess, [], ["Sorry, the demo file could not be loaded right now.".data],
          [], [demoRef s kind], SELECTING_ACTION⟩

/-- The three callback actions handled by `handle_buy_or_admin`. -/
inductive BuyAction where
  | talk_admin
  | buy_course
  | share_screenshot
deriving DecidableEq

/-- Payment text of `src/main.py`. -/
def buy_text_main (c : Course) : List Char :=
  "✅ <b>Purchase ".data ++ htmlEscape c.name ++ "</b>\n\n<b>Price: ₹".data ++
  natToDecimal c.price ++ "</b>\n\nPay via Razorpay and share your screenshot here.".data

/-- Payment text of `src/bot.py` (MarkdownV2). -/
def buy_text_bot (c : Course) : List Char :=
  "✅ *Purchase ".data ++ mdEscape c.name ++ "*\n\n*Price: ₹".data ++
  natToDecimal c.price ++ "*\n\nPay via Razorpay and share your screenshot here\\.".data

/-- `handle_buy_or_admin` of `src/main.py`: the buy branch checks the session
selection and surfaces the recoverable session-expired message. -/
def handle_buy_or_admin_main (action : BuyAction) (sess : Session) :
    Except (List Char) HOut :=
  match action with
  | .talk_admin => .ok ⟨sess, [],
      ["Please type your message and send it. I will forward it to the admin.".data],
      [], [], FORWARD_TO_ADMIN⟩
  | .buy_course =>
    match sess.selected_course with
    | none => .ok ⟨sess, [], ["Session expired. Please start over using /start.".data],
        [], [], SELECTING_ACTION⟩
    | some c =>
      match sess.back_to_course_key with
      | none => .error "KeyError: back_to_course_key".data
      | some _ => .ok ⟨sess, [], [buy_text_main c], [], [], SELECTING_ACTION⟩
  | .share_screenshot => .ok ⟨sess, [],
      ["Please send the screenshot of your payment now.".data], [], [], FORWARD_SCREENSHOT⟩

/-- `handle_buy_or_admin` of `src/bot.py`: the buy branch dereferences
`course["price"]` without a `None` check, raising `TypeError` when no course
was selected. -/
def handle_buy_or_admin_bot (action : BuyAction) (sess : Session) :
    Except (List Char) HOut :=
  match action with
  | .talk_admin => .ok ⟨sess, [],
      ["Please type your message and send it\\. I will forward it to the admin\\.".data],
      [], [], FORWARD_TO_ADMIN⟩
  | .buy_course =>
    match sess.selected_course with
    | none => .error "TypeError: NoneType is not subscriptable".data
    | some c => .ok ⟨sess, [], [buy_text_bot c], [], [], SELECTING_ACTION⟩
  | .share_screenshot => .ok ⟨sess, [],
      ["Please send the screenshot of your payment now\\.".data], [], [], FORWARD_SCREENSHOT⟩

/-- The display name of the session's selected course, with the
`{'name': 'General Query'}` default of `forward_to_admin`. -/
def courseNameOf (sess : Session) : List Char :=
  match sess.selected_course with
  | none => "General Query".data
  | some c => c.name

/-- Relay message body built by `forward_to_admin` in `src/main.py`, exactly
as the f-string constructs it (HTML tags and `html.escape` included). -/
def forward_to_admin_text (name courseName msg : List Char) (uid : Nat) : List Char :=
  "📩 <b>New Message</b>\nFrom: ".data ++ htmlEscape name ++ " (ID: <code>".data ++
  natToDecimal uid ++ "</code>)\nContext: <b>".data ++ htmlEscape courseName ++
  "</b>\n\nMessage:\n".data ++ htmlEscape msg

/-- Relay message body built by `forward_to_admin` in `src/bot.py` (MarkdownV2,
with the literal backslashes and backticks of the source f-string). -/
def forward_to_admin_text_bot (name courseName msg : List Char) (uid : Nat) : List Char :=
  "📩 *New Message*\nFrom: ".data ++ mdEscape name ++ " \\(ID: ".data ++
  [Char.ofNat 96] ++ natToDecimal uid ++ [Char.ofNat 96] ++ "\\)\nContext: *".data ++
  mdEscape courseName ++ "*\n\n".data ++ mdEscape msg

/-- The `main.py` relay body as the transport delivers it to the admin: the
message is sent with `parse_mode=HTML`, so the `reply_to_message.text` the
admin replies to has the tags consumed and entities decoded.  This is the
text the correlation rule parses. -/
def forward_to_admin_rendered (name courseName msg : List Char) (uid : Nat) : List Char :=
  "📩 New Message\nFrom: ".data ++ name ++ " (ID: ".data ++ natToDecimal uid ++
  ")\nContext: ".data ++ courseName ++ "\n\nMessage:\n".data ++ msg

/-- Correlation parse of `reply_to_user` (both variants):
`int(orig.split("(ID: ")[1].split(")")[0].replace(backtick, ""))`, `none`
modelling the raised `ValueError`/`IndexError`. -/
def extract_user_id (orig : List Char) : Option Int :=
  match afterFirst tokID orig with
  | none => none
  | some rest =>
    pyInt ((upToFirst [')'] (upToFirst tokID rest)).filter (fun c => !(c == Char.ofNat 96)))

/-- Outcome of `reply_to_user`: `ignored` = the handler returned without any
send (guard failed, no replied-to text, or no token substring); `sent uid` =
the reply was relayed to `uid` and the admin got a confirmation;
`parseError` = the except-branch message was sent to the admin only. -/
inductive ReplyOutcome where
  | ignored
  | sent (uid : Int)
  | parseError
deriving DecidableEq

/-- `reply_to_user` (the control flow is identical in both variants): only the
admin replying to a message is handled; the token substring is looked for in
the replied-to text or caption and the parsed id is the destination. -/
def reply_to_user (fromAdmin : Bool) (hasReply : Bool) (orig : Option (List Char)) :
    ReplyOutcome :=
  if fromAdmin = false then .ignored
  else if hasReply = false then .ignored
  else
    match orig with
    | none => .ignored
    | some o =>
      if occursIn tokID o then
        match extract_user_id o with
        | some uid => .sent uid
        | none => .parseError
      else .ignored

/-- The user ids `reply_to_user` sends a message to. -/
def replyUserSends : ReplyOutcome → List Int
  | .sent uid => [uid]
  | _ => []

/-- The messages `reply_to_user` sends back to the admin (`src/main.py` texts). -/
def replyAdminMsgs : ReplyOutcome → List (List Char)
  | .sent _ => ["✅ Reply sent successfully.".data]
  | .parseError => ["❌ Failed to parse User ID.".data]
  | .ignored => []

/-- A non-command message arriving while a conversation state is active. -/
inductive NonCmdMsg where
  | textMsg (s : List Char)
  | photoMsg
  | otherMsg
deriving DecidableEq

/-- Observable effect of dispatching one message in a conversation state. -/
structure StepOut where
  toAdmin : List (List Char)
  toUser : List (List Char)
  nextState : Nat
deriving DecidableEq

/-- Dispatch in state `FORWARD_TO_ADMIN` of `src/main.py`: `filters.TEXT`
routes to `forward_to_admin` (which relays, confirms and re-enters `start`),
and the `filters.ALL` fallback routes to `wrong_input_text` (re-prompt, stay).
Accounting effects of the nested `start` are modelled by `start_main`. -/
def forward_state_main (uid : Nat) (uname : List Char) (sess : Session) :
    NonCmdMsg → StepOut
  | .textMsg s =>
    ⟨[forward_to_admin_text uname (courseNameOf sess) s uid],
     ["✅ Message sent to admin. They will reply to you here shortly.".data,
      welcome_text_main uname],
     SELECTING_ACTION⟩
  | _ =>
    ⟨[], ["⚠️ Please type a text message, or send /cancel to go back to the menu.".data],
     FORWARD_TO_ADMIN⟩

/-- Dispatch in state `FORWARD_TO_ADMIN` of `src/bot.py`: only the
`filters.TEXT` handler is registered, so any other message matches nothing —
the conversation state is left unchanged and no reply is produced. -/
def forward_state_bot (uid : Nat) (uname : List Char) (sess : Session) :
    NonCmdMsg → StepOut
  | .textMsg s =>
    ⟨[forward_to_admin_text_bot uname (courseNameOf sess) s uid],
     ["✅ Message sent to admin\\.".data, welcome_text_bot uname],
     SELECTING_ACTION⟩
  | _ => ⟨[], [], FORWARD_TO_ADMIN⟩

/-- The registered-user table: (user id, stored first name). -/
def lookupUser : List (Nat × List Char) → Nat → Option (List Char)
  | [], _ => none
  | (k, v) :: t, uid => if k = uid then some v else lookupUser t uid

/-- `track_user` of `src/main.py`: `INSERT ... ON CONFLICT (user_id) DO UPDATE
SET first_name = EXCLUDED.first_name` — an upsert that refreshes the name. -/
def track_user_main (t : List (Nat × List Char)) (uid : Nat) (name : List Char) :
    List (Nat × List Char) :=
  match t with
  | [] => [(uid, name)]
  | (k, v) :: rest =>
    if k = uid then (k, name) :: rest else (k, v) :: track_user_main rest uid name

/-- `track_user` of `src/bot.py`: `INSERT ... ON CONFLICT (user_id) DO NOTHING`
— an existing record is left untouched. -/
def track_user_bot (t : List (Nat × List Char)) (uid : Nat) (name : List Char) :
    List (Nat × List Char) :=
  match t with
  | [] => [(uid, name)]
  | (k, v) :: rest =>
    if k = uid then (k, v) :: rest else (k, v) :: track_user_bot rest uid name

/-- Observable effect of one `/broadcast` invocation. -/
structure BroadcastRes where
  fetched : Bool
  attempted : List Nat
  delivered : List Nat
  adminReplies : List (List Char)
deriving DecidableEq

/-- Completion report of `src/main.py`:
`"✅ Broadcast complete. Successfully sent to {s}/{k} users."`. -/
def report_text_main (s k : Nat) : List Char :=
  "✅ Broadcast complete. Successfully sent to ".data ++ natToDecimal s ++
  "/".data ++ natToDecimal k ++ " users.".data

/-- `broadcast` of `src/main.py`: admin guard, usage notice on empty args,
explicit no-pool and no-users notices, then one guarded send per user with
the success counter, and the final report. -/
def broadcast_main (fromAdmin : Bool) (args : List (List Char)) (hasPool : Bool)
    (users : List Nat) (fails : Nat → Bool) : BroadcastRes :=
  if fromAdmin = false then ⟨false, [], [], []⟩
  else if args = [] then ⟨false, [], [], ["⚠️ Usage: /broadcast <your message here>".data]⟩
  else if hasPool = false then
    ⟨false, [], [], ["❌ Database not connected. Cannot fetch users.".data]⟩
  else if users = [] then ⟨true, [], [], ["No users found in the database.".data]⟩
  else
    ⟨true, users, users.filter (fun u => !fails u),
     [report_text_main (users.filter (fun u => !fails u)).length users.length]⟩

/-- Python `" ".join(args)`. -/
def joinSpace : List (List Char) → List Char
  | [] => []
  | a :: rest => a ++ rest.flatMap (fun w => ' ' :: w)

/-- Completion report of `src/bot.py`:
`"📢 Broadcast done\\. Sent: {sent}, Failed: {failed}"`. -/
def report_text_bot (s f : Nat) : List Char :=
  "📢 Broadcast done\\. Sent: ".data ++ natToDecimal s ++ ", Failed: ".data ++
  natToDecimal f

/-- `broadcast` of `src/bot.py`: admin guard, usage notice when the joined
message is empty, then `bot_data[..]` (KeyError when the pool is absent), the
per-user loop counting sent/failed, and the final report. -/
def broadcast_bot (fromAdmin : Bool) (args : List (List Char)) (hasPool : Bool)
    (users : List Nat) (fails : Nat → Bool) : Except (List Char) BroadcastRes :=
  if fromAdmin = false then .ok ⟨false, [], [], []⟩
  else if joinSpace args = [] then
    .ok ⟨false, [], [],
      ["Usage: ".data ++ [Char.ofNat 96] ++ "/broadcast your message".data ++ [Char.ofNat 96]]⟩
  else if hasPool = false then .error "KeyError: db_pool".data
  else
    .ok ⟨true, users, users.filter (fun u => !fails u),
      [report_text_bot (users.filter (fun u => !fails u)).length (users.filter fails).length]⟩

/-- A digit character is not an `int`-stripped whitespace character. -/
lemma isWs_eq_false_of_digitQ {c : Char} (h : digitQ c = true) : isWs c = false := by
  simp only [digitQ, Bool.and_eq_true, decide_eq_true_eq] at h
  simp only [isWs, Bool.or_eq_false_iff, decide_eq_false_iff_not]
  omega

/-- Rendering a digit keeps it in the ASCII digit range. -/
lemma digitQ_digitChar {r : Nat} (h : r < 10) : digitQ (digitChar r) = true := by
  interval_cases r <;> decide

/-- Parsing inverts rendering on a single digit. -/
lemma dval_digitChar {r : Nat} (h : r < 10) : dval (digitChar r) = r := by
  interval_cases r <;> decide

/-- The accumulator of `natDigitsAux` is simply appended. -/
lemma natDigitsAux_append (n : Nat) :
    ∀ acc : List Char, natDigitsAux n acc = natDigitsAux n [] ++ acc := by
  induction n using Nat.strong_induction_on with
  | _ n ih =>
    intro acc
    match n with
    | 0 => simp [natDigitsAux]
    | m + 1 =>
      have hq : (m + 1) / 10 < m + 1 := Nat.div_lt_self (Nat.succ_pos m) (by omega)
      rw [natDigitsAux, natDigitsAux, ih _ hq (digitChar ((m + 1) % 10) :: acc),
        ih _ hq [digitChar ((m + 1) % 10)]]
      simp

/-- Every character produced by `natDigitsAux` is an ASCII digit. -/
lemma natDigitsAux_all_digit (n : Nat) :
    ∀ c ∈ natDigitsAux n [], digitQ c = true := by
  induction n using Nat.strong_induction_on with
  | _ n ih =>
    match n with
    | 0 => simp [natDigitsAux]
    | m + 1 =>
      have hq : (m + 1) / 10 < m + 1 := Nat.div_lt_self (Nat.succ_pos m) (by omega)
      rw [natDigitsAux, natDigitsAux_append]
      intro c hc
      rcases List.mem_append.mp hc with h | h
      · exact ih _ hq c h
      · rcases List.mem_singleton.mp h with rfl
        exact digitQ_digitChar (Nat.mod_lt _ (by omega))

/-- `valFrom` over an append runs the two pieces in sequence. -/
lemma valFrom_append (a : Nat) (xs ys : List Char) :
    valFrom a (xs ++ ys) = valFrom (valFrom a xs) ys := by
  simp [valFrom, List.foldl_append]

/-- The decimal value of the rendered digits of `n` is `n`. -/
lemma valFrom_natDigitsAux (n : Nat) : valFrom 0 (natDigitsAux n []) = n := by
  induction n using Nat.strong_induction_on with
  | _ n ih =>
    match n with
    | 0 => simp [natDigitsAux, valFrom]
    | m + 1 =>
      have hq : (m + 1) / 10 < m + 1 := Nat.div_lt_self (Nat.succ_pos m) (by omega)
      rw [natDigitsAux, natDigitsAux_append, valFrom_append, ih _ hq]
      have hd : dval (digitChar ((m + 1) % 10)) = (m + 1) % 10 :=
        dval_digitChar (Nat.mod_lt _ (by omega))
      simp [valFrom, hd]
      omega

/-- `natToDecimal` produces only ASCII digits. -/
lemma natToDecimal_all_digit (n : Nat) : ∀ c ∈ natToDecimal n, digitQ c = true := by
  unfold natToDecimal
  split
  · simp
    decide
  · exact natDigitsAux_all_digit n

/-- `natToDecimal` is never empty. -/
lemma natToDecimal_ne_nil (n : Nat) : natToDecimal n ≠ [] := by
  unfold natToDecimal
  split
  · simp
  · rename_i h
    match m : n, h with
    | m + 1, _ =>
      rw [natDigitsAux, natDigitsAux_append]
      simp

/-- The decimal value of `natToDecimal n` is `n`. -/
lemma valFrom_natToDecimal (n : Nat) : valFrom 0 (natToDecimal n) = n := by
  unfold natToDecimal
  split
  · rename_i h
    subst h
    decide
  · exact valFrom_natDigitsAux n

/-- Stripping leaves an all-digit string unchanged. -/
lemma pyStrip_digits (l : List Char) (h : ∀ c ∈ l, digitQ c = true) :
    pyStrip l = l := by
  have front : ∀ m : List Char, (∀ c ∈ m, digitQ c = true) → m.dropWhile isWs = m := by
    intro m hm
    cases m with
    | nil => rfl
    | cons c t =>
      have : isWs c = false := isWs_eq_false_of_digitQ (hm c (List.mem_cons_self c t))
      simp [List.dropWhile, this]
  unfold pyStrip
  rw [front l h, front l.reverse (by intro c hc; exact h c (List.mem_reverse.mp hc)),
    List.reverse_reverse]

/-- One all-digit step of the underscore scan. -/
lemma udAux_cons_digit (a : Nat) (c : Char) (t : List Char) (hc : digitQ c = true) :
    udAux a (c :: t) = udAux (a * 10 + dval c) t := by
  rw [udAux.eq_def]
  simp [hc]

/-- `valFrom` unfolds one character at a time. -/
lemma valFrom_cons (a : Nat) (c : Char) (t : List Char) :
    valFrom a (c :: t) = valFrom (a * 10 + dval c) t := rfl

/-- The underscore scan succeeds on an all-digit string with the folded value. -/
lemma udAux_digits (l : List Char) :
    ∀ a, (∀ c ∈ l, digitQ c = true) → udAux a l = some (valFrom a l) := by
  induction l with
  | nil => intro a _; rfl
  | cons c t ih =>
    intro a h
    have hc : digitQ c = true := h c (List.mem_cons_self c t)
    rw [udAux_cons_digit a c t hc, ih _ (fun x hx => h x (List.mem_cons_of_mem c hx)),
      valFrom_cons]

/-- `udVal` on a nonempty all-digit string yields its decimal value. -/
lemma udVal_digits (c : Char) (t : List Char)
    (h : ∀ x ∈ c :: t, digitQ x = true) :
    udVal (c :: t) = some (valFrom 0 (c :: t)) := by
  have hc : digitQ c = true := h c (List.mem_cons_self c t)
  rw [udVal]
  simp only [hc, if_true]
  rw [udAux_digits t (dval c) (fun x hx => h x (List.mem_cons_of_mem c hx)),
    valFrom_cons]
  simp

/-- Python `int` on a nonempty all-digit string yields its decimal value. -/
lemma pyInt_digits (l : List Char) (h : ∀ c ∈ l, digitQ c = true) (hne : l ≠ []) :
    pyInt l = some (Int.ofNat (valFrom 0 l)) := by
  unfold pyInt
  rw [pyStrip_digits l h]
  match l, hne with
  | c :: t, _ =>
    have hc : digitQ c = true := h c (List.mem_cons_self c t)
    have h48 : 48 ≤ c.toNat := by
      simp only [digitQ, Bool.and_eq_true, decide_eq_true_eq] at hc
      exact hc.1
    have h43 : ¬ c.toNat = 43 := by omega
    have h45 : ¬ c.toNat = 45 := by omega
    simp only [h43, h45, if_false]
    rw [udVal_digits c t h]
    rfl

/-- Digits survive the backtick-removing `replace` of `reply_to_user`. -/
lemma filter_backtick_digits (l : List Char) (h : ∀ c ∈ l, digitQ c = true) :
    l.filter (fun c => !(c == Char.ofNat 96)) = l := by
  rw [List.filter_eq_self]
  intro c hc
  have hd := h c hc
  simp only [digitQ, Bool.and_eq_true, decide_eq_true_eq] at hd
  simp only [Bool.not_eq_eq_eq_not, Bool.not_true, beq_eq_false_iff_ne, ne_eq]
  intro hEq
  have : c.toNat = 96 := by rw [hEq]; decide
  omega

/-- A pattern matches at the head of itself followed by anything. -/
lemma leadsWith_append_self (p : List Char) : ∀ s, leadsWith p (p ++ s) = true := by
  induction p with
  | nil => intro s; rfl
  | cons a as ih => intro s; simp [leadsWith, ih]

/-- Dropping the length of the left part of an append. -/
lemma drop_append_self (a : List Char) : ∀ b : List Char, (a ++ b).drop a.length = b := by
  induction a with
  | nil => intro b; rfl
  | cons x xs ih => intro b; simp [List.drop_succ_cons, ih]

/-- `afterFirst` at an immediate occurrence. -/
lemma afterFirst_self (x : Char) (xs rest : List Char) :
    afterFirst (x :: xs) ((x :: xs) ++ rest) = some rest := by
  have h := leadsWith_append_self (x :: xs) rest
  rw [List.cons_append] at h ⊢
  rw [afterFirst, if_pos h, List.length_cons, List.drop_succ_cons, drop_append_self]

/-- A head match survives truncating the appended tail when the pattern fits. -/
lemma leadsWith_of_append_long (p : List Char) :
    ∀ s x : List Char, leadsWith p (s ++ x) = true → p.length ≤ s.length →
      leadsWith p s = true := by
  induction p with
  | nil => intro s x _ _; rfl
  | cons a as ih =>
    intro s x h hl
    cases s with
    | nil => simp at hl
    | cons b bs =>
      rw [List.cons_append, leadsWith, Bool.and_eq_true] at h
      rw [leadsWith, Bool.and_eq_true]
      exact ⟨h.1, ih bs x h.2 (by simpa using hl)⟩

/-- When the pattern overruns `s`, `s` itself matches at the pattern head. -/
lemma leadsWith_rev_of_append_short (s : List Char) :
    ∀ p x : List Char, leadsWith p (s ++ x) = true → s.length < p.length →
      leadsWith s p = true := by
  induction s with
  | nil => intro p x _ _; rfl
  | cons b bs ih =>
    intro p x h hl
    cases p with
    | nil => simp at hl
    | cons a as =>
      rw [List.cons_append, leadsWith, Bool.and_eq_true] at h
      rw [leadsWith, Bool.and_eq_true]
      have hab : a = b := by simpa using h.1
      exact ⟨by simp [hab], ih as x h.2 (by simpa using hl)⟩

/-- A snoc pattern matching at the head pins its last character. -/
lemma leadsWith_snoc_drop (q : List Char) :
    ∀ (c : Char) (p : List Char), leadsWith (q ++ [c]) p = true →
      leadsWith [c] (p.drop q.length) = true := by
  induction q with
  | nil => intro c p h; simpa using h
  | cons a q' ih =>
    intro c p h
    cases p with
    | nil => rw [List.cons_append, leadsWith] at h; exact absurd h (by simp)
    | cons b bs =>
      rw [List.cons_append, leadsWith, Bool.and_eq_true] at h
      simpa [List.drop_succ_cons] using ih c bs h.2

/-- The correlation token matches the relay body exactly at the embedded
token: any prefix ending in a space and containing no token occurrence is
skipped, and a straddling match is impossible because no proper prefix of
`"(ID: "` ends in a space. -/
lemma afterFirst_prefix_space (q : List Char) :
    ∀ rest : List Char, occursIn tokID (q ++ [' ']) = false →
      afterFirst tokID (q ++ (' ' :: (tokID ++ rest))) = some rest := by
  induction q with
  | nil =>
    intro rest _
    have hf : leadsWith tokID (' ' :: (tokID ++ rest)) = false := rfl
    show afterFirst tokID (' ' :: (tokID ++ rest)) = some rest
    rw [afterFirst, hf]
    simp only [Bool.false_eq_true, if_false]
    exact afterFirst_self '(' ['I', 'D', ':', ' '] rest
  | cons a q' ih =>
    intro rest hocc
    have hocc' : occursIn tokID (a :: (q' ++ [' '])) = false := by
      rw [List.cons_append] at hocc
      exact hocc
    rw [occursIn, Bool.or_eq_false_iff] at hocc'
    obtain ⟨h1, h2⟩ := hocc'
    have hstep : leadsWith tokID (a :: (q' ++ (' ' :: (tokID ++ rest)))) = false := by
      cases hb : leadsWith tokID (a :: (q' ++ (' ' :: (tokID ++ rest)))) with
      | false => rfl
      | true =>
        exfalso
        have hb' : leadsWith tokID ((a :: (q' ++ [' '])) ++ (tokID ++ rest)) = true := by
          rw [List.cons_append, List.append_assoc]
          exact hb
        by_cases hlen : tokID.length ≤ (a :: (q' ++ [' '])).length
        · have hin := leadsWith_of_append_long tokID (a :: (q' ++ [' ']))
            (tokID ++ rest) hb' hlen
          rw [h1] at hin
          exact Bool.false_ne_true hin
        · push_neg at hlen
          have hrev := leadsWith_rev_of_append_short (a :: (q' ++ [' '])) tokID
            (tokID ++ rest) hb' hlen
          have hrev' : leadsWith ((a :: q') ++ [' ']) tokID = true := by
            rw [List.cons_append]
            exact hrev
          have hsnoc := leadsWith_snoc_drop (a :: q') ' ' tokID hrev'
          have hq3 : q'.length = 0 ∨ q'.length = 1 ∨ q'.length = 2 := by
            have hl := hlen
            simp only [tokID, List.length_cons, List.length_append,
              List.length_singleton] at hl
            omega
          rw [List.length_cons] at hsnoc
          rcases hq3 with h0 | h0 | h0 <;> rw [h0] at hsnoc <;>
            exact absurd hsnoc (by decide)
    show afterFirst tokID (a :: (q' ++ (' ' :: (tokID ++ rest)))) = some rest
    rw [afterFirst, hstep]
    simp only [Bool.false_eq_true, if_false]
    exact ih rest h2

/-- A mismatching head character passes through `upToFirst`. -/
lemma upToFirst_cons_ne (x : Char) (p' : List Char) (c : Char) (t : List Char)
    (hc : (x == c) = false) :
    upToFirst (x :: p') (c :: t) = c :: upToFirst (x :: p') t := by
  have hf : leadsWith (x :: p') (c :: t) = false := by
    rw [leadsWith, hc, Bool.false_and]
  rw [upToFirst, hf]
  simp

/-- A block of characters that never match the pattern head passes through
`upToFirst` unchanged. -/
lemma upToFirst_append_ne_head (x : Char) (p' : List Char) :
    ∀ d r : List Char, (∀ c ∈ d, (x == c) = false) →
      upToFirst (x :: p') (d ++ r) = d ++ upToFirst (x :: p') r := by
  intro d
  induction d with
  | nil => intro r _; rfl
  | cons c d' ih =>
    intro r hd
    rw [List.cons_append, upToFirst_cons_ne x p' c _ (hd c (List.mem_cons_self c d')),
      ih r (fun c hc => hd c (List.mem_cons_of_mem _ hc))]
    rfl

/-- `upToFirst` of a singleton pattern at an immediate match. -/
lemma upToFirst_match_head (x : Char) (t : List Char) :
    upToFirst [x] (x :: t) = [] := by
  have h : leadsWith [x] (x :: t) = true := by simp [leadsWith]
  rw [upToFirst, h]
  simp

/-- Characters with distinct code points are `BEq`-distinct. -/
lemma beq_eq_false_of_toNat_ne {a c : Char} (h : a.toNat ≠ c.toNat) :
    (a == c) = false := by
  rw [beq_eq_false_iff_ne]
  intro he
  exact h (by rw [he])

/-- An opening parenthesis is not a digit. -/
lemma paren_open_beq_digit {c : Char} (h : digitQ c = true) : ('(' == c) = false := by
  apply beq_eq_false_of_toNat_ne
  simp only [digitQ, Bool.and_eq_true, decide_eq_true_eq] at h
  have : '('.toNat = 40 := rfl
  omega

/-- A closing parenthesis is not a digit. -/
lemma paren_close_beq_digit {c : Char} (h : digitQ c = true) : (')' == c) = false := by
  apply beq_eq_false_of_toNat_ne
  simp only [digitQ, Bool.and_eq_true, decide_eq_true_eq] at h
  have : ')'.toNat = 41 := rfl
  omega

/-- The token never starts inside a digit block. -/
lemma upToFirst_tokID_digits (D : List Char) (r : List Char)
    (hD : ∀ c ∈ D, digitQ c = true) :
    upToFirst tokID (D ++ r) = D ++ upToFirst tokID r := by
  show upToFirst ('(' :: ['I', 'D', ':', ' ']) (D ++ r) = D ++ _
  exact upToFirst_append_ne_head '(' _ D r (fun c hc => paren_open_beq_digit (hD c hc))

/-- The token does not start at a closing parenthesis. -/
lemma upToFirst_tokID_rparen (t : List Char) :
    upToFirst tokID (')' :: t) = ')' :: upToFirst tokID t := by
  show upToFirst ('(' :: ['I', 'D', ':', ' ']) _ = _
  exact upToFirst_cons_ne '(' _ ')' t (by decide)

/-- `split(")")[0]` recovers exactly the digit block before the parenthesis. -/
lemma upToFirst_rparen_digits (D Y : List Char) (hD : ∀ c ∈ D, digitQ c = true) :
    upToFirst [')'] (D ++ (')' :: Y)) = D := by
  rw [upToFirst_append_ne_head ')' [] D (')' :: Y)
    (fun c hc => paren_close_beq_digit (hD c hc)), upToFirst_match_head]
  simp

/-- Unfolding `extract_user_id` when the token occurs. -/
lemma extract_eq_of_afterFirst {o rest : List Char}
    (h : afterFirst tokID o = some rest) :
    extract_user_id o =
      pyInt ((upToFirst [')'] (upToFirst tokID rest)).filter
        (fun c => !(c == Char.ofNat 96))) := by
  unfold extract_user_id
  rw [h]

/-- C1 (amended): parsing operates on the transport-rendered relay text; for
every user id `u` (including 0 and any maximum), every course name and every
message text, provided the sender display name does not make `"(ID: "` occur
in the message prefix before the embedded token, parsing the rendered
User-to-Admin relay body by the correlation rule yields exactly `u`. -/
theorem C1_relay_round_trip (u : Nat) (name courseName msg : List Char)
    (h : occursIn tokID ("📩 New Message\nFrom: ".data ++ name ++ [' ']) = false) :
    extract_user_id (forward_to_admin_rendered name courseName msg u) =
      some (Int.ofNat u) := by
  have hD := natToDecimal_all_digit u
  have hbody : forward_to_admin_rendered name courseName msg u =
      ("📩 New Message\nFrom: ".data ++ name) ++
        (' ' :: (tokID ++ (natToDecimal u ++
          (')' :: ("\nContext: ".data ++ (courseName ++
            ("\n\nMessage:\n".data ++ msg))))))) := by
    unfold forward_to_admin_rendered
    have h1 : " (ID: ".data = ' ' :: tokID := by decide
    have h2 : ")\nContext: ".data = ')' :: "\nContext: ".data := by decide
    rw [h1, h2]
    simp [List.append_assoc]
  have haf := afterFirst_prefix_space ("📩 New Message\nFrom: ".data ++ name)
    (natToDecimal u ++ (')' :: ("\nContext: ".data ++ (courseName ++
      ("\n\nMessage:\n".data ++ msg))))) h
  rw [hbody, extract_eq_of_afterFirst haf, upToFirst_tokID_digits _ _ hD,
    upToFirst_tokID_rparen, upToFirst_rparen_digits _ _ hD,
    filter_backtick_digits _ hD, pyInt_digits _ hD (natToDecimal_ne_nil u),
    valFrom_natToDecimal]

/-- C1 witness: the round trip applied at a short and a maximal 64-bit id. -/
theorem C1_relay_round_trip_witness :
    extract_user_id (forward_to_admin_rendered "Alice".data "General Query".data
        "Need help with payment".data 0) = some (Int.ofNat 0) ∧
    extract_user_id (forward_to_admin_rendered "Alice".data "General Query".data
        "Need help with payment".data 9223372036854775807) =
      some (Int.ofNat 9223372036854775807) :=
  ⟨C1_relay_round_trip 0 "Alice".data "General Query".data
      "Need help with payment".data (by decide),
   C1_relay_round_trip 9223372036854775807 "Alice".data "General Query".data
      "Need help with payment".data (by decide)⟩

/-- C1 counterexample: with the display name `"Mallory (ID: 7) X"` (which
`html.escape` leaves intact) the embedded token is not the first occurrence
of the `(ID: <digits>)` pattern, and the correlation rule recovers `7`
instead of the encoded id `42`. -/
theorem C1_relay_round_trip_counterexample :
    extract_user_id (forward_to_admin_rendered "Mallory (ID: 7) X".data
        "General Query".data "hi".data 42) = some (Int.ofNat 7) ∧
    extract_user_id (forward_to_admin_rendered "Mallory (ID: 7) X".data
        "General Query".data "hi".data 42) ≠ some (Int.ofNat 42) := by
  constructor
  · decide
  · decide

/-- C2: evaluation at unknown catalog identifiers.  `subject_menu` of
`src/main.py` and `send_demo_content` of `src/bot.py` raise `KeyError`
instead of the specified silent no-op; only `course_menu` validates its
identifier and degrades to a no-op. -/
theorem C2_unknown_identifier_raises :
    subject_menu_main "c_nope" "s_maths" emptySession = Except.error "KeyError".data ∧
    subject_menu_main "c_gsssb" "s_nope" emptySession = Except.error "KeyError".data ∧
    send_demo_content_bot 5 "c_nope" "s_x" DemoKind.vid true emptySession =
      Except.error "KeyError".data ∧
    course_menu_main DbState.absent "c_nope" emptySession =
      Except.ok ⟨emptySession, [], [], [], [], SELECTING_ACTION⟩ :=
  ⟨rfl, rfl, rfl, rfl⟩

/-- C3: with no stored selection, the buy action of `src/main.py` degrades to
the session-expired message in state `SELECTING_ACTION`, while `src/bot.py`
raises `TypeError` from `course["price"]`. -/
theorem C3_buy_without_selection :
    handle_buy_or_admin_bot BuyAction.buy_course emptySession =
      Except.error "TypeError: NoneType is not subscriptable".data ∧
    handle_buy_or_admin_main BuyAction.buy_course emptySession =
      Except.ok ⟨emptySession, [],
        ["Session expired. Please start over using /start.".data], [], [],
        SELECTING_ACTION⟩ :=
  ⟨rfl, rfl⟩

/-- C4 (amended): an admin reply whose replied-to text has no `"(ID: "`
substring is silently ignored — nothing is sent to any user and no failure
report is issued; a reply whose token payload fails to parse is reported to
the admin only, and no user receives a message. -/
theorem C4_unroutable_reply (o : List Char) :
    (occursIn tokID o = false →
      reply_to_user true true (some o) = ReplyOutcome.ignored ∧
      replyUserSends (reply_to_user true true (some o)) = [] ∧
      replyAdminMsgs (reply_to_user true true (some o)) = []) ∧
    (occursIn tokID o = true → extract_user_id o = none →
      reply_to_user true true (some o) = ReplyOutcome.parseError ∧
      replyUserSends (reply_to_user true true (some o)) = [] ∧
      replyAdminMsgs (reply_to_user true true (some o)) =
        ["❌ Failed to parse User ID.".data]) := by
  constructor
  · intro h
    have hr : reply_to_user true true (some o) = ReplyOutcome.ignored := by
      unfold reply_to_user
      simp [h]
    exact ⟨hr, by rw [hr]; rfl, by rw [hr]; rfl⟩
  · intro h he
    have hr : reply_to_user true true (some o) = ReplyOutcome.parseError := by
      unfold reply_to_user
      simp [h, he]
    exact ⟨hr, by rw [hr]; rfl, by rw [hr]; rfl⟩

/-- C4 witness: the amended theorem applied at a token-free reply and at a
non-numeric payload. -/
theorem C4_unroutable_reply_witness :
    reply_to_user true true (some "please send the course link".data) =
      ReplyOutcome.ignored ∧
    reply_to_user true true (some "x (ID: abc)".data) = ReplyOutcome.parseError :=
  ⟨((C4_unroutable_reply "please send the course link".data).1 (by decide)).1,
   ((C4_unroutable_reply "x (ID: abc)".data).2 (by decide) (by decide)).1⟩

/-- C4 counterexample: for a reply to a message with no token, the handler
produces no report at all — in particular the failure is not reported to the
admin, contradicting the claim. -/
theorem C4_unroutable_reply_counterexample :
    reply_to_user true true (some "please send me the link".data) =
      ReplyOutcome.ignored ∧
    replyAdminMsgs (reply_to_user true true (some "please send me the link".data)) =
      [] := by
  constructor
  · decide
  · decide

/-- C5 (amended): in `src/main.py` a text message in `FORWARD_TO_ADMIN` is
relayed, confirmed and followed by the restart menu (next state
`SELECTING_ACTION`), and any non-text non-command message is re-prompted
with the state kept; in `src/bot.py` the text transition is identical but a
non-text message matches no registered handler, so the state is kept with no
re-prompt at all. -/
theorem C5_forward_state (uid : Nat) (uname : List Char) (sess : Session)
    (s : List Char) :
    forward_state_main uid uname sess (NonCmdMsg.textMsg s) =
      ⟨[forward_to_admin_text uname (courseNameOf sess) s uid],
       ["✅ Message sent to admin. They will reply to you here shortly.".data,
        welcome_text_main uname], SELECTING_ACTION⟩ ∧
    forward_state_main uid uname sess NonCmdMsg.photoMsg =
      ⟨[], ["⚠️ Please type a text message, or send /cancel to go back to the menu.".data],
       FORWARD_TO_ADMIN⟩ ∧
    forward_state_main uid uname sess NonCmdMsg.otherMsg =
      ⟨[], ["⚠️ Please type a text message, or send /cancel to go back to the menu.".data],
       FORWARD_TO_ADMIN⟩ ∧
    forward_state_bot uid uname sess (NonCmdMsg.textMsg s) =
      ⟨[forward_to_admin_text_bot uname (courseNameOf sess) s uid],
       ["✅ Message sent to admin\\.".data, welcome_text_bot uname],
       SELECTING_ACTION⟩ ∧
    forward_state_bot uid uname sess NonCmdMsg.photoMsg = ⟨[], [], FORWARD_TO_ADMIN⟩ :=
  ⟨rfl, rfl, rfl, rfl, rfl⟩

/-- C5 counterexample: in `src/bot.py` a photo sent while awaiting an admin
message produces no reply at all — no re-prompt is sent, contradicting the
claim ,  although the state does remain `FORWARD_TO_ADMIN`. -/
theorem C5_forward_state_counterexample :
    forward_state_bot 42 "Alice".data emptySession NonCmdMsg.photoMsg =
      ⟨[], [], FORWARD_TO_ADMIN⟩ ∧
    (forward_state_bot 42 "Alice".data emptySession NonCmdMsg.photoMsg).toUser = [] :=
  ⟨rfl, rfl⟩

/-- C6: evaluation with the accounting store unavailable.  `src/bot.py`
raises `KeyError` before rendering anything when the pool is absent, and in
both variants a raising store call aborts `start` before the menu; only the
absent-pool case of `src/main.py` skips silently and still renders. -/
theorem C6_accounting_blocks_navigation :
    start_bot DbState.absent 7 "Alice".data emptySession =
      Except.error "KeyError: db_pool".data ∧
    start_main DbState.down 7 "Alice".data emptySession =
      Except.error "asyncpg error raised by track_user".data ∧
    start_main DbState.absent 7 "Alice".data emptySession =
      Except.ok ⟨emptySession, [], [welcome_text_main "Alice".data], [], [],
        SELECTING_ACTION⟩ :=
  ⟨rfl, rfl, rfl⟩

/-- C7 (amended): `track_user` of `src/main.py` is an upsert whose stored
name always equals the latest argument; `track_user` of `src/bot.py`
(`ON CONFLICT DO NOTHING`) guarantees a record exists but keeps the
previously stored name when one was already present. -/
theorem C7_record_user (t : List (Nat × List Char)) (uid : Nat) (name : List Char) :
    lookupUser (track_user_main t uid name) uid = some name ∧
    lookupUser (track_user_bot t uid name) uid = some ((lookupUser t uid).getD name) := by
  constructor
  · induction t with
    | nil => simp [track_user_main, lookupUser]
    | cons p rest ih =>
      obtain ⟨k, v⟩ := p
      by_cases hk : k = uid
      · subst hk
        simp [track_user_main, lookupUser]
      · simp [track_user_main, lookupUser, hk, ih]
  · induction t with
    | nil => simp [track_user_bot, lookupUser]
    | cons p rest ih =>
      obtain ⟨k, v⟩ := p
      by_cases hk : k = uid
      · subst hk
        simp [track_user_bot, lookupUser]
      · simp [track_user_bot, lookupUser, hk, ih]

/-- C7 counterexample: after re-recording user 1 with a new name, the
`src/bot.py` table still stores the original name, so the stored display
name does not equal the most recent argument. -/
theorem C7_record_user_counterexample :
    lookupUser (track_user_bot [(1, "Old".data)] 1 "New".data) 1 = some "Old".data ∧
    lookupUser (track_user_bot [(1, "Old".data)] 1 "New".data) 1 ≠ some "New".data := by
  constructor
  · rfl
  · decide

/-- C8: for every valid (course, subject) pair of the `src/main.py` registry
and each demo kind, the request returns the unavailable alert exactly when
the stored reference is the sentinel or the channel is unconfigured, and
otherwise issues exactly one replay carrying the stored reference — with a
transport failure caught and surfaced as a user notice, never an error. -/
theorem C8_demo_delivery (course_key subj_key : String) (c : Course) (s : Subject)
    (kind : DemoKind) (channel : Int) (copyOk : Bool) (sess : Session)
    (hc : dGet COURSES_main course_key = some c)
    (hs : dGet c.subjects subj_key = some s) :
    ((channel = 0 ∨ demoRef s kind = 0) →
      send_demo_content_main channel course_key subj_key kind copyOk sess =
        Except.ok ⟨sess, [], [], ["No demo available for this subject yet.".data],
          [], SELECTING_ACTION⟩) ∧
    (¬(channel = 0 ∨ demoRef s kind = 0) →
      send_demo_content_main channel course_key subj_key kind copyOk sess =
        Except.ok ⟨sess, [],
          [if copyOk then upsell_text_main c
           else "Sorry, the file could not be loaded. Please ensure the bot is an admin in the private channel.".data],
          [], [demoRef s kind], SELECTING_ACTION⟩) := by
  simp only [send_demo_content_main, hc, hs]
  constructor
  · intro h
    rw [if_pos h]
  · intro h
    rw [if_neg h]
    cases copyOk <;> simp

/-- C8 witness: a sentinel reference yields the unavailable alert, and a
present reference with a failing transport yields one replay of reference 3
plus the caught-failure notice. -/
theorem C8_demo_delivery_witness :
    send_demo_content_main 5 "c_gsssb" "s_polity" DemoKind.mat true emptySession =
      Except.ok ⟨emptySession, [], [], ["No demo available for this subject yet.".data],
        [], SELECTING_ACTION⟩ ∧
    send_demo_content_main 5 "c_gsssb" "s_maths" DemoKind.vid false emptySession =
      Except.ok ⟨emptySession, [],
        ["Sorry, the file could not be loaded. Please ensure the bot is an admin in the private channel.".data],
        [], [3], SELECTING_ACTION⟩ :=
  ⟨(C8_demo_delivery "c_gsssb" "s_polity" _ ⟨"Polity".data, 47, 0⟩ DemoKind.mat 5 true
      emptySession rfl rfl).1 (Or.inr rfl),
   (C8_demo_delivery "c_gsssb" "s_maths" _ ⟨"Maths".data, 3, 99⟩ DemoKind.vid 5 false
      emptySession rfl rfl).2 (by decide)⟩

/-- Partition of a list length by a Boolean predicate. -/
lemma length_filter_not_add (l : List Nat) (p : Nat → Bool) :
    (l.filter (fun u => !p u)).length + (l.filter p).length = l.length := by
  induction l with
  | nil => rfl
  | cons a t ih =>
    by_cases hp : p a = true
    · simp [List.filter_cons, hp]
      omega
    · simp only [Bool.not_eq_true] at hp
      simp [List.filter_cons, hp]
      omega

/-- C9 (amended): for at least one registered user, `/broadcast` from the
admin attempts a send to every registered user, delivers exactly one message
to each non-failing user, and reports `sent = k - f` of `total = k`; with
zero registered users `src/main.py` instead replies with the no-users notice
and no sent/total report. -/
theorem C9_broadcast_report (args : List (List Char)) (users : List Nat)
    (fails : Nat → Bool) (hargs : args ≠ []) (husers : users ≠ []) :
    (broadcast_main true args true users fails).attempted = users ∧
    (broadcast_main true args true users fails).delivered =
      users.filter (fun u => !fails u) ∧
    (broadcast_main true args true users fails).adminReplies =
      [report_text_main (users.length - (users.filter fails).length) users.length] := by
  have hb : broadcast_main true args true users fails =
      ⟨true, users, users.filter (fun u => !fails u),
       [report_text_main (users.filter (fun u => !fails u)).length users.length]⟩ := by
    unfold broadcast_main
    simp [hargs, husers]
  have hlen : (users.filter (fun u => !fails u)).length =
      users.length - (users.filter fails).length := by
    have := length_filter_not_add users fails
    omega
  rw [hb, hlen]
  exact ⟨rfl, rfl, rfl⟩

/-- C9 witness: three registered users of which one fails — all three
attempted, the two others delivered, and the report reads 2 of 3. -/
theorem C9_broadcast_report_witness :
    (broadcast_main true ["hi".data] true [1, 2, 3] (fun u => u == 2)).attempted =
      [1, 2, 3] ∧
    (broadcast_main true ["hi".data] true [1, 2, 3] (fun u => u == 2)).delivered =
      [1, 3] ∧
    (broadcast_main true ["hi".data] true [1, 2, 3] (fun u => u == 2)).adminReplies =
      [report_text_main 2 3] := by
  have h := C9_broadcast_report ["hi".data] [1, 2, 3] (fun u => u == 2)
    (by decide) (by decide)
  exact ⟨h.1, h.2.1, h.2.2⟩

/-- C9 counterexample: with zero registered users (`k = 0`, `f = 0`)
`src/main.py` replies with the no-users notice, not with a `sent = 0,
total = 0` report. -/
theorem C9_broadcast_report_counterexample :
    broadcast_main true ["hi".data] true [] (fun _ => false) =
      ⟨true, [], [], ["No users found in the database.".data]⟩ ∧
    (broadcast_main true ["hi".data] true [] (fun _ => false)).adminReplies ≠
      [report_text_main 0 0] := by
  constructor
  · rfl
  · decide

/-- C10: `/broadcast` from the admin with an empty argument list replies with
the usage notice only: no user fetch, no send attempt, no delivery, in both
variants — regardless of pool state, registered users or failure pattern. -/
theorem C10_broadcast_empty_args (hasPool : Bool) (users : List Nat)
    (fails : Nat → Bool) :
    broadcast_main true [] hasPool users fails =
      ⟨false, [], [], ["⚠️ Usage: /broadcast <your message here>".data]⟩ ∧
    broadcast_bot true [] hasPool users fails =
      Except.ok ⟨false, [], [],
        ["Usage: ".data ++ [Char.ofNat 96] ++ "/broadcast your message".data ++
         [Char.ofNat 96]]⟩ :=
  ⟨rfl, rfl⟩
